import Mathlib

/-!
Shallow embedding of the rate-caching and conversion engine in
`src/config/converter.py` (class `CurrencyConverter`), together with the
collaborators it touches: the remote rate provider (`api_client`) and the
on-disk JSON cache.  Amounts and rates are modelled as exact rationals;
timestamps as naturals.  The cache directory is modelled as an association
list from file name to stored entry, where an entry is either a well-formed
record or unreadable/malformed content (on which `json.load` raises).
Instrumentation counters (cache loads, cache stores, provider fetches) are
threaded through the state so that "no fetch happened" claims are statable.
-/

/-- Python's `str.upper()`: uppercase every character. -/
def py_upper (s : String) : String :=
  String.mk (s.data.map Char.toUpper)

/-- Leading/trailing whitespace stripping, as `float(str)` performs before
parsing. -/
def py_strip (cs : List Char) : List Char :=
  ((cs.dropWhile Char.isWhitespace).reverse.dropWhile Char.isWhitespace).reverse

def digitsToNat (cs : List Char) : Nat :=
  cs.foldl (fun a c => a * 10 + (c.toNat - 48)) 0

/-- Model of Python's `float(s)` on strings: optional surrounding whitespace,
optional sign, decimal digits with optional fractional part and optional
exponent.  Returns the exact rational value, or `none` when `float` would
raise `ValueError`. -/
def parsePyFloat (s : String) : Option Rat :=
  let cs := py_strip s.data
  let signAndRest : Bool × List Char :=
    match cs with
    | '-' :: r => (true, r)
    | '+' :: r => (false, r)
    | _ => (false, cs)
  let neg := signAndRest.1
  let cs1 := signAndRest.2
  let intPart := cs1.takeWhile Char.isDigit
  let rest := cs1.dropWhile Char.isDigit
  let fracAndRest : List Char × List Char :=
    match rest with
    | '.' :: r => (r.takeWhile Char.isDigit, r.dropWhile Char.isDigit)
    | _ => ([], rest)
  let fracPart := fracAndRest.1
  let rest2 := fracAndRest.2
  let expParse : Option (Int × List Char) :=
    match rest2 with
    | 'e' :: r | 'E' :: r =>
      let esign : Bool × List Char :=
        match r with
        | '-' :: r2 => (true, r2)
        | '+' :: r2 => (false, r2)
        | _ => (false, r)
      let eds := esign.2.takeWhile Char.isDigit
      let r3 := esign.2.dropWhile Char.isDigit
      if eds.isEmpty then none
      else some (if esign.1 then -(digitsToNat eds : Int) else (digitsToNat eds : Int), r3)
    | _ => some (0, rest2)
  match expParse with
  | none => none
  | some (e, rest3) =>
    if intPart.isEmpty && fracPart.isEmpty then none
    else if !rest3.isEmpty then none
    else
      let mantissa : Rat :=
        (digitsToNat intPart : Rat) + (digitsToNat fracPart : Rat) / ((10 : Rat) ^ fracPart.length)
      let v := mantissa * (10 : Rat) ^ e
      some (if neg then -v else v)

/-- The `amount` argument of `CurrencyConverter.convert`, typed
`Union[float, str]` in the source. -/
inductive AmountInput where
  | num (x : Rat)
  | str (s : String)
deriving DecidableEq, Repr

/-- Model of `float(amount)` in `convert`: a float is returned unchanged, a
string is parsed. -/
def parse_amount : AmountInput → Option Rat
  | .num x => some x
  | .str s => parsePyFloat s

/-- The dict returned by `api_client.get_rates`: `base`, `rates` and an
optional `date` field (`rates.get('date', ...)` in the source). -/
structure ProviderRates where
  base : String
  rates : List (String × Rat)
  date : Option String
deriving DecidableEq, Repr

/-- The JSON record written by `_save_rates_to_cache` and read back by
`_load_cached_rates`: keys `base`, `rates`, `date`, `expires_at`. -/
structure CacheRecord where
  base : String
  rates : List (String × Rat)
  date : String
  expires_at : Nat
deriving DecidableEq, Repr

/-- Content of one cache file: either a well-formed record, or unreadable /
malformed content on which `open` + `json.load` raises (carrying the raised
exception's message). -/
inductive CacheEntry where
  | valid (r : CacheRecord)
  | malformed (msg : String)
deriving DecidableEq, Repr

/-- The exceptions the engine can raise: `ValueError` (invalid amount),
`InvalidCurrencyError`, `APIError` (rate-fetch failure wrapper), and the
unhandled error propagating out of a corrupt cache read. -/
inductive PyError where
  | valueError (msg : String)
  | invalidCurrencyError (msg : String)
  | apiError (msg : String)
  | cacheReadError (msg : String)
deriving DecidableEq, Repr

/-- The mutable world the engine acts on: the clock (`datetime.now()` as a
timestamp), today's date string (`str(datetime.now().date())`), the cache
directory contents, whether a cache-file write would raise (and with what
message), and the instrumentation counters. -/
structure World where
  now : Nat
  today : String
  cache : List (String × CacheEntry)
  storeFail : Option String
  loadCount : Nat
  storeCount : Nat
  fetchCount : Nat
deriving DecidableEq, Repr

/-- The external rate provider: its configured `cache_timeout` (seconds) and
the outcome of `get_rates` per requested base currency (`.error msg` models a
raised exception with `str(e) = msg`). -/
structure ApiClient where
  cache_timeout : Nat
  get_rates : String → Except String ProviderRates

/-- `_get_cache_file`: the cache file name for a base currency. -/
def get_cache_file (base_currency : String) : String :=
  py_upper base_currency ++ "_rates.json"

/-- Association-list lookup on the cache directory (does the file exist, and
with what content). -/
def lookupCache : List (String × CacheEntry) → String → Option CacheEntry
  | [], _ => none
  | (k', v) :: rest, k => if k' == k then some v else lookupCache rest k

/-- Association-list overwrite on the cache directory (`open(..., 'w')`
replaces the file's content). -/
def setCache : List (String × CacheEntry) → String → CacheEntry → List (String × CacheEntry)
  | [], k, v => [(k, v)]
  | (k', v') :: rest, k, v =>
    if k' == k then (k, v) :: rest else (k', v') :: setCache rest k v

/-- `_load_cached_rates`: if the cache file exists, read it (`json.load`
raises on malformed content — nothing catches that here) and return the
record when `datetime.now() < expires_at`, else `None`; a missing file is
`None`. -/
def load_cached_rates (cache : List (String × CacheEntry)) (now : Nat)
    (base_currency : String) : Except PyError (Option CacheRecord) :=
  match lookupCache cache (get_cache_file base_currency) with
  | none => .ok none
  | some (.malformed msg) => .error (.cacheReadError msg)
  | some (.valid r) => if now < r.expires_at then .ok (some r) else .ok none

/-- The record `_save_rates_to_cache` builds from the provider dict:
`date` defaults to today's date when the provider omitted it. -/
def make_cache_record (rates : ProviderRates) (today : String) (expires_at : Nat) :
    CacheRecord :=
  { base := rates.base, rates := rates.rates,
    date := rates.date.getD today, expires_at := expires_at }

/-- `_save_rates_to_cache`: write the record to the base currency's cache
file; a failing write raises (the error's `str` is carried). -/
def save_rates_to_cache (w : World) (base_currency : String) (rates : ProviderRates)
    (expires_at : Nat) : Except String World :=
  match w.storeFail with
  | some msg => .error msg
  | none =>
    .ok { w with cache := setCache w.cache (get_cache_file base_currency)
                    (.valid (make_cache_record rates w.today expires_at)) }

/-- The dict `get_exchange_rates` returns: the cached record on a hit (with
its `expires_at` field), or the raw provider dict on a fetch. Only the
`rates` key is read downstream. -/
inductive RatesDict where
  | cached (r : CacheRecord)
  | fetched (p : ProviderRates)
deriving DecidableEq, Repr

def RatesDict.ratesOf : RatesDict → List (String × Rat)
  | .cached r => r.rates
  | .fetched p => p.rates

/-- `get_exchange_rates`: uppercase the base, try the cache, else fetch from
the provider, compute `expires_at = now + cache_timeout`, save, return.  The
`try` block covers fetch AND save: an exception from either is wrapped in
`APIError("Could not fetch exchange rates: " + str(e))`.  A corrupt cache
read happens before the `try` and propagates unwrapped. -/
def get_exchange_rates (api : ApiClient) (w : World) (base_currency : String) :
    Except PyError RatesDict × World :=
  let base := py_upper base_currency
  let w1 := { w with loadCount := w.loadCount + 1 }
  match load_cached_rates w.cache w.now base with
  | .error e => (.error e, w1)
  | .ok (some data) => (.ok (.cached data), w1)
  | .ok none =>
    let w2 := { w1 with fetchCount := w1.fetchCount + 1 }
    match api.get_rates base with
    | .error msg =>
      (.error (.apiError ("Could not fetch exchange rates: " ++ msg)), w2)
    | .ok rates =>
      let expires_at := w2.now + api.cache_timeout
      let w3 := { w2 with storeCount := w2.storeCount + 1 }
      match save_rates_to_cache w3 base rates expires_at with
      | .error msg =>
        (.error (.apiError ("Could not fetch exchange rates: " ++ msg)), w3)
      | .ok w4 => (.ok (.fetched rates), w4)

/-- `convert`: parse the amount (`ValueError` on failure), uppercase both
codes, identity short-circuit, otherwise get rates for the source currency,
check the target is a key of `rates['rates']`, and multiply.  The `date`
parameter is accepted and never used. -/
def convert (api : ApiClient) (w : World) (amount : AmountInput)
    (from_currency to_currency : String) (date : Option String) :
    Except PyError Rat × World :=
  match parse_amount amount with
  | none => (.error (.valueError "Amount must be a number"), w)
  | some a =>
    let from_c := py_upper from_currency
    let to_c := py_upper to_currency
    if from_c == to_c then (.ok a, w)
    else
      match get_exchange_rates api w from_c with
      | (.error e, w') => (.error e, w')
      | (.ok rates, w') =>
        match rates.ratesOf.lookup to_c with
        | none =>
          (.error (.invalidCurrencyError ("Currency " ++ to_c ++ " not found in rates")), w')
        | some r => (.ok (a * r), w')

/-- `get_supported_currencies`: the keys of the USD snapshot's rates map. -/
def get_supported_currencies (api : ApiClient) (w : World) :
    Except PyError (List String) × World :=
  match get_exchange_rates api w "USD" with
  | (.error e, w') => (.error e, w')
  | (.ok rates, w') => (.ok (rates.ratesOf.map Prod.fst), w')

/-- The snapshot key invariant claimed by the spec: unique, uppercase rate
keys, and the base currency not among them. -/
def snapshotInv (base : String) (rates : List (String × Rat)) : Prop :=
  (rates.map Prod.fst).Nodup ∧
  (∀ k ∈ rates.map Prod.fst, py_upper k = k) ∧
  base ∉ rates.map Prod.fst

instance (base : String) (rates : List (String × Rat)) :
    Decidable (snapshotInv base rates) := by
  unfold snapshotInv; infer_instance

instance {ε α : Type} [DecidableEq ε] [DecidableEq α] :
    DecidableEq (Except ε α) := fun a b =>
  match a, b with
  | .ok x, .ok y => if h : x = y then .isTrue (by rw [h]) else .isFalse (by simp [h])
  | .ok _, .error _ => .isFalse (by simp)
  | .error _, .ok _ => .isFalse (by simp)
  | .error e, .error f => if h : e = f then .isTrue (by rw [h]) else .isFalse (by simp [h])

/-! Concrete fixtures used by witnesses and counterexamples. -/

/-- A fresh world: empty cache directory, writable disk. -/
def w0 : World :=
  { now := 100, today := "2024-01-15", cache := [], storeFail := none,
    loadCount := 0, storeCount := 0, fetchCount := 0 }

/-- A concrete provider response for base USD. -/
def pEx : ProviderRates :=
  { base := "USD", rates := [("EUR", mkRat 92 100), ("GBP", mkRat 79 100)],
    date := some "2024-01-15" }

/-- A provider that knows USD and fails on everything else, with a one-hour
cache lifetime. -/
def apiEx : ApiClient :=
  { cache_timeout := 3600,
    get_rates := fun b => if b == "USD" then .ok pEx else .error "unsupported base" }

/-- A concrete stored cache record for USD, expiring at time 500. -/
def recEx : CacheRecord :=
  { base := "USD", rates := [("EUR", mkRat 92 100)], date := "2024-01-15",
    expires_at := 500 }

/-- A cache directory holding `recEx` under the USD cache file name. -/
def cacheEx : List (String × CacheEntry) :=
  [(get_cache_file "usd", .valid recEx)]

/-- C1: for every amount parseable as a number and every currency code `c`,
`convert(a, c, c)` returns the parsed amount exactly, with no multiplication
applied, and leaves the world untouched: no cache load or store and no
provider fetch happens. -/
theorem convert_identity (api : ApiClient) (w : World) (a : AmountInput)
    (c : String) (d : Option String) (q : Rat)
    (h : parse_amount a = some q) :
    convert api w a c c d = (.ok q, w) := by
  unfold convert
  rw [h]
  simp

theorem convert_identity_witness :
    parse_amount (.str "10") = some 10 ∧
    convert apiEx w0 (.str "10") "USD" "USD" none = (.ok 10, w0) :=
  ⟨by with_unfolding_all rfl,
   convert_identity apiEx w0 (.str "10") "USD" none 10 (by with_unfolding_all rfl)⟩

/-- C2: a snapshot stored under its base currency's cache file is returned by
`_load_cached_rates` exactly when the current time is strictly before its
`expires_at`, and treated as absent when the current time is at or after it;
the function performs no write, so the stale entry is ignored, not deleted. -/
theorem load_cached_rates_freshness (cache : List (String × CacheEntry))
    (b : String) (r : CacheRecord) (now : Nat)
    (h : lookupCache cache (get_cache_file b) = some (.valid r)) :
    (now < r.expires_at → load_cached_rates cache now b = .ok (some r)) ∧
    (r.expires_at ≤ now → load_cached_rates cache now b = .ok none) := by
  refine ⟨fun hlt => ?_, fun hle => ?_⟩
  · simp [load_cached_rates, h, hlt]
  · simp [load_cached_rates, h, Nat.not_lt.mpr hle]

theorem load_cached_rates_freshness_witness :
    load_cached_rates cacheEx 100 "usd" = .ok (some recEx) ∧
    load_cached_rates cacheEx 500 "usd" = .ok none :=
  ⟨(load_cached_rates_freshness cacheEx "usd" recEx 100 (by decide)).1 (by decide),
   (load_cached_rates_freshness cacheEx "usd" recEx 500 (by decide)).2 (by decide)⟩

/-- C6: an amount that does not parse as a float makes `convert` fail with the
`ValueError` "Amount must be a number" — a constructor distinct from the
rate-fetch (`APIError`) and currency (`InvalidCurrencyError`) errors — and the
world is untouched: the failure happens before any cache access or provider
fetch, so the fetch count stays where it was. -/
theorem convert_invalid_amount (api : ApiClient) (w : World) (a : AmountInput)
    (f t : String) (d : Option String)
    (h : parse_amount a = none) :
    convert api w a f t d = (.error (.valueError "Amount must be a number"), w) ∧
    (∀ m, PyError.valueError "Amount must be a number" ≠ .apiError m) ∧
    (∀ m, PyError.valueError "Amount must be a number" ≠ .invalidCurrencyError m) := by
  refine ⟨?_, ?_, ?_⟩
  · unfold convert
    rw [h]
  · intro m h2
    cases h2
  · intro m h2
    cases h2

theorem convert_invalid_amount_witness :
    parse_amount (.str "abc") = none ∧
    convert apiEx w0 (.str "abc") "USD" "EUR" none
      = (.error (.valueError "Amount must be a number"), w0) :=
  ⟨by decide,
   (convert_invalid_amount apiEx w0 (.str "abc") "USD" "EUR" none (by decide)).1⟩

/-- C9: `convert` ignores its `date` parameter entirely: for any two date
arguments (including absent) the result value and the final world — cache
contents and all counters — coincide. -/
theorem convert_ignores_date (api : ApiClient) (w : World) (a : AmountInput)
    (f t : String) (d1 d2 : Option String) :
    convert api w a f t d1 = convert api w a f t d2 := rfl

/-- C3: starting from an empty cache, `get_exchange_rates X` performs exactly
one provider fetch, persists a record whose `expires_at` is the current time
plus the provider's `cache_timeout`, and a second call issued at any time
strictly inside that window performs zero further fetches and is served from
the cache. -/
theorem get_exchange_rates_fetch_fallback (api : ApiClient) (w : World)
    (X : String) (p : ProviderRates) (t : Nat)
    (hcache : w.cache = [])
    (hfetch : api.get_rates (py_upper X) = .ok p)
    (hstore : w.storeFail = none)
    (ht : t < w.now + api.cache_timeout) :
    ∃ w1,
      get_exchange_rates api w X = (.ok (.fetched p), w1) ∧
      w1.fetchCount = w.fetchCount + 1 ∧
      lookupCache w1.cache (get_cache_file (py_upper X))
        = some (.valid (make_cache_record p w.today (w.now + api.cache_timeout))) ∧
      ∃ w2,
        get_exchange_rates api { w1 with now := t } X
          = (.ok (.cached (make_cache_record p w.today (w.now + api.cache_timeout))), w2) ∧
        w2.fetchCount = w1.fetchCount := by
  refine ⟨{ w with loadCount := w.loadCount + 1, fetchCount := w.fetchCount + 1, storeCount := w.storeCount + 1, cache := [(get_cache_file (py_upper X), .valid (make_cache_record p w.today (w.now + api.cache_timeout)))] }, ?_, rfl, ?_, ?_⟩
  · simp [get_exchange_rates, load_cached_rates, hcache, lookupCache, hfetch,
          save_rates_to_cache, hstore, setCache]
  · simp [lookupCache]
  · refine ⟨{ w with now := t, loadCount := w.loadCount + 1 + 1, fetchCount := w.fetchCount + 1, storeCount := w.storeCount + 1, cache := [(get_cache_file (py_upper X), .valid (make_cache_record p w.today (w.now + api.cache_timeout)))] }, ?_, rfl⟩
    simp [get_exchange_rates, load_cached_rates, lookupCache, make_cache_record, ht]

theorem get_exchange_rates_fetch_fallback_witness :
    w0.cache = [] ∧
    ∃ w1,
      get_exchange_rates apiEx w0 "usd" = (.ok (.fetched pEx), w1) ∧
      w1.fetchCount = w0.fetchCount + 1 ∧
      lookupCache w1.cache (get_cache_file (py_upper "usd"))
        = some (.valid (make_cache_record pEx w0.today (w0.now + apiEx.cache_timeout))) ∧
      ∃ w2,
        get_exchange_rates apiEx { w1 with now := 200 } "usd"
          = (.ok (.cached (make_cache_record pEx w0.today (w0.now + apiEx.cache_timeout))), w2) ∧
        w2.fetchCount = w1.fetchCount :=
  ⟨rfl, get_exchange_rates_fetch_fallback apiEx w0 "usd" pEx 200 rfl (by decide) rfl (by decide)⟩

/-- A world whose cache-file writes raise an OSError with message
"disk full". -/
def wFailDisk : World := { w0 with storeFail := some "disk full" }

/-- C4 counterexample: the provider fetch for USD succeeds, yet because the
subsequent cache store fails, `get_exchange_rates` does NOT return the fetched
snapshot — the store failure is caught by the same handler as fetch errors
and re-raised as the rate-fetch failure `APIError`, aborting the request. -/
theorem get_exchange_rates_store_failure_cex :
    apiEx.get_rates (py_upper "USD") = .ok pEx ∧
    (get_exchange_rates apiEx wFailDisk "USD").1
      = .error (.apiError "Could not fetch exchange rates: disk full") := by
  constructor
  · decide
  · decide

/-- C4 amended: when the provider fetch succeeds but the cache store fails,
`get_exchange_rates` raises `APIError("Could not fetch exchange rates: ...")`
wrapping the store error's message — the cache-write failure aborts the
request and is surfaced as a rate-fetch failure, not as a non-fatal
warning. -/
theorem get_exchange_rates_store_failure (api : ApiClient) (w : World)
    (X : String) (p : ProviderRates) (msg : String)
    (hcache : load_cached_rates w.cache w.now (py_upper X) = .ok none)
    (hfetch : api.get_rates (py_upper X) = .ok p)
    (hstore : w.storeFail = some msg) :
    (get_exchange_rates api w X).1
      = .error (.apiError ("Could not fetch exchange rates: " ++ msg)) := by
  simp [get_exchange_rates, hcache, hfetch, save_rates_to_cache, hstore]

theorem get_exchange_rates_store_failure_witness :
    load_cached_rates wFailDisk.cache wFailDisk.now (py_upper "USD") = .ok none ∧
    (get_exchange_rates apiEx wFailDisk "USD").1
      = .error (.apiError ("Could not fetch exchange rates: " ++ "disk full")) :=
  ⟨by decide,
   get_exchange_rates_store_failure apiEx wFailDisk "USD" pEx "disk full"
     (by decide) (by decide) rfl⟩

/-- A cache directory whose USD entry is unreadable/malformed (the message is
what `json.load` would raise). -/
def cacheBad : List (String × CacheEntry) :=
  [(get_cache_file "USD", .malformed "Expecting value: line 1 column 1 (char 0)")]

/-- C5 counterexample: with a malformed stored entry for USD,
`_load_cached_rates` raises (the `json.load` error propagates) instead of
treating the entry as absent. -/
theorem load_cached_rates_malformed_cex :
    load_cached_rates cacheBad 100 "USD"
      = .error (.cacheReadError "Expecting value: line 1 column 1 (char 0)") := by
  decide

/-- C5 amended: a missing cache entry is treated as absent (no error), but an
unreadable or malformed stored entry makes `_load_cached_rates` raise the
underlying read error rather than fall through to a fresh fetch. -/
theorem load_cached_rates_missing_or_malformed (cache : List (String × CacheEntry))
    (now : Nat) (b : String) :
    (lookupCache cache (get_cache_file b) = none →
      load_cached_rates cache now b = .ok none) ∧
    (∀ msg, lookupCache cache (get_cache_file b) = some (.malformed msg) →
      load_cached_rates cache now b = .error (.cacheReadError msg)) := by
  constructor
  · intro h
    simp [load_cached_rates, h]
  · intro msg h
    simp [load_cached_rates, h]

theorem load_cached_rates_missing_or_malformed_witness :
    load_cached_rates [] 100 "EUR" = .ok none ∧
    load_cached_rates cacheBad 100 "USD"
      = .error (.cacheReadError "Expecting value: line 1 column 1 (char 0)") :=
  ⟨(load_cached_rates_missing_or_malformed [] 100 "EUR").1 (by decide),
   (load_cached_rates_missing_or_malformed cacheBad 100 "USD").2
     "Expecting value: line 1 column 1 (char 0)" (by decide)⟩

/-- Looking up the key just written by an association-list overwrite returns
the written entry. -/
theorem lookup_setCache_self (c : List (String × CacheEntry)) (k : String)
    (v : CacheEntry) : lookupCache (setCache c k v) k = some v := by
  induction c with
  | nil => simp [setCache, lookupCache]
  | cons hd tl ih =>
    obtain ⟨k', v'⟩ := hd
    by_cases h : (k' == k) = true
    · simp [setCache, h, lookupCache]
    · simp [setCache, h, lookupCache, ih]

/-- C7: for a valid amount and distinct (uppercased) currencies, once
`get_exchange_rates` has produced a snapshot, `convert` fails with an
`InvalidCurrencyError` whose message names the missing uppercased target code
when that code is not a key of the snapshot's rates — returning no numeric
result — and otherwise returns exactly the parsed amount times the target's
rate, with no rounding. -/
theorem convert_unknown_currency_or_multiplies (api : ApiClient) (w : World)
    (a : AmountInput) (f t : String) (d : Option String) (q : Rat)
    (rates : RatesDict) (w' : World)
    (hq : parse_amount a = some q)
    (hne : (py_upper f == py_upper t) = false)
    (hr : get_exchange_rates api w (py_upper f) = (.ok rates, w')) :
    (rates.ratesOf.lookup (py_upper t) = none →
      convert api w a f t d
        = (.error (.invalidCurrencyError ("Currency " ++ py_upper t ++ " not found in rates")), w')) ∧
    (∀ r, rates.ratesOf.lookup (py_upper t) = some r →
      convert api w a f t d = (.ok (q * r), w')) := by
  constructor
  · intro hl
    simp [convert, hq, hne, hr, hl]
  · intro r hl
    simp [convert, hq, hne, hr, hl]

/-- The world after `get_exchange_rates apiEx w0 "USD"`: one load, one fetch,
one store, and the fetched snapshot persisted until time 3700. -/
def w1Ex : World :=
  { now := 100, today := "2024-01-15",
    cache := [("USD_rates.json", .valid { base := "USD", rates := [("EUR", mkRat 92 100), ("GBP", mkRat 79 100)], date := "2024-01-15", expires_at := 3700 })],
    storeFail := none, loadCount := 1, storeCount := 1, fetchCount := 1 }

theorem convert_unknown_currency_or_multiplies_witness :
    (convert apiEx w0 (.str "10") "USD" "ZZZ" none
      = (.error (.invalidCurrencyError ("Currency " ++ py_upper "ZZZ" ++ " not found in rates")), w1Ex)) ∧
    (convert apiEx w0 (.str "10") "USD" "EUR" none = (.ok ((10 : Rat) * mkRat 92 100), w1Ex)) :=
  ⟨(convert_unknown_currency_or_multiplies apiEx w0 (.str "10") "USD" "ZZZ" none 10
      (.fetched pEx) w1Ex (by with_unfolding_all rfl) (by decide) (by decide)).1 (by decide),
   (convert_unknown_currency_or_multiplies apiEx w0 (.str "10") "USD" "EUR" none 10
      (.fetched pEx) w1Ex (by with_unfolding_all rfl) (by decide) (by decide)).2
     (mkRat 92 100) (by decide)⟩

/-- C8: storing a snapshot with `_save_rates_to_cache` under its own base and
then loading that base strictly before the stored expiry returns the stored
record, whose `base`, `rates` and `date` fields equal the snapshot's. -/
theorem store_load_round_trip (w : World) (s : ProviderRates) (d : String)
    (e t : Nat) (w' : World)
    (hd : s.date = some d)
    (hstore : save_rates_to_cache w s.base s e = .ok w')
    (ht : t < e) :
    load_cached_rates w'.cache t s.base = .ok (some (make_cache_record s w.today e)) ∧
    (make_cache_record s w.today e).base = s.base ∧
    (make_cache_record s w.today e).rates = s.rates ∧
    (make_cache_record s w.today e).date = d := by
  cases hsf : w.storeFail with
  | some m => simp [save_rates_to_cache, hsf] at hstore
  | none =>
    simp only [save_rates_to_cache, hsf, Except.ok.injEq] at hstore
    subst hstore
    refine ⟨?_, rfl, rfl, ?_⟩
    · simp [load_cached_rates, lookup_setCache_self, make_cache_record, ht]
    · simp [make_cache_record, hd]

/-- The world after storing `pEx` into the fresh world `w0` with expiry
500. -/
def wStored : World :=
  { now := 100, today := "2024-01-15",
    cache := [("USD_rates.json", .valid { base := "USD", rates := [("EUR", mkRat 92 100), ("GBP", mkRat 79 100)], date := "2024-01-15", expires_at := 500 })],
    storeFail := none, loadCount := 0, storeCount := 0, fetchCount := 0 }

theorem store_load_round_trip_witness :
    pEx.date = some "2024-01-15" ∧
    save_rates_to_cache w0 pEx.base pEx 500 = .ok wStored ∧
    load_cached_rates wStored.cache 120 pEx.base
      = .ok (some (make_cache_record pEx w0.today 500)) :=
  ⟨rfl, by decide,
   (store_load_round_trip w0 pEx "2024-01-15" 500 120 wStored rfl (by decide) (by decide)).1⟩

/-- A provider response whose rates map contains its own base currency (as
real-world providers commonly do, listing the base at rate 1). -/
def pBad : ProviderRates :=
  { base := "USD", rates := [("USD", 1), ("EUR", mkRat 92 100)],
    date := some "2024-01-15" }

def apiBad : ApiClient :=
  { cache_timeout := 3600, get_rates := fun _ => .ok pBad }

/-- The record `get_exchange_rates apiBad w0 "USD"` persists. -/
def recBad : CacheRecord :=
  { base := "USD", rates := [("USD", 1), ("EUR", mkRat 92 100)],
    date := "2024-01-15", expires_at := 3700 }

/-- C10 counterexample: the engine persists the provider's rates map
verbatim; with a provider response listing the base itself among the rates,
the stored snapshot has its own base currency as a key of its rates map, so
the claimed invariant fails for a stored snapshot. -/
theorem stored_snapshot_invariant_cex :
    lookupCache ((get_exchange_rates apiBad w0 "USD").2.cache) (get_cache_file "USD")
      = some (.valid recBad) ∧
    ¬ snapshotInv recBad.base recBad.rates := by
  constructor
  · decide
  · decide

/-- C10 amended: `_save_rates_to_cache` persists the provider's `base` and
`rates` fields verbatim, so a stored snapshot satisfies the key invariant
(unique uppercase rate keys, base not among them) exactly when the provider's
response does — the engine itself enforces no part of the invariant. -/
theorem save_preserves_snapshot_inv (w : World) (b : String) (p : ProviderRates)
    (e : Nat) (w' : World) (r : CacheRecord)
    (hstore : save_rates_to_cache w b p e = .ok w')
    (hlook : lookupCache w'.cache (get_cache_file b) = some (.valid r)) :
    r.base = p.base ∧ r.rates = p.rates ∧
    (snapshotInv r.base r.rates ↔ snapshotInv p.base p.rates) := by
  cases hsf : w.storeFail with
  | some m => simp [save_rates_to_cache, hsf] at hstore
  | none =>
    simp only [save_rates_to_cache, hsf, Except.ok.injEq] at hstore
    subst hstore
    rw [lookup_setCache_self] at hlook
    have hr : r = make_cache_record p w.today e := by
      cases hlook
      rfl
    subst hr
    simp [make_cache_record]

theorem save_preserves_snapshot_inv_witness :
    save_rates_to_cache w0 "USD" pEx 500 = .ok wStored ∧
    lookupCache wStored.cache (get_cache_file "USD")
      = some (.valid (make_cache_record pEx w0.today 500)) ∧
    (make_cache_record pEx w0.today 500).base = pEx.base ∧
    (make_cache_record pEx w0.today 500).rates = pEx.rates :=
  ⟨by decide, by decide,
   (save_preserves_snapshot_inv w0 "USD" pEx 500 wStored
      (make_cache_record pEx w0.today 500) (by decide) (by decide)).1.trans rfl,
   (save_preserves_snapshot_inv w0 "USD" pEx 500 wStored
      (make_cache_record pEx w0.today 500) (by decide) (by decide)).2.1⟩
